import Mathlib

/-!
Verification of the four-stage answer-quality pipeline in `faff_qa.py`.

The Python code is shallowly embedded: strings are Lean `String`s, Python
`str.split`/`str.strip`/`in` are modelled character-list scanners with the same
semantics, `json.loads` is modelled by an executable fuel-based parser
`parseJson` over an inductive `Json` value type, and each pipeline stage is a
pure function from the state (and the gateway's raw reply text) to its update,
exactly as in the source.  Python truthiness (`or`-chains, `if x:` tests on
optional strings and dicts) is modelled explicitly wherever the source relies
on it.
-/

namespace FaffQA

/-! ## Python string primitives

`listContains sub l` models Python `sub in s` (substring containment).
`takeUntil sep l` is the prefix of `l` before the first occurrence of `sep`
(all of `l` if none); `dropThrough sep l` is the suffix after the first
occurrence (`[]` if none).  Together they model Python `s.split(sep)[i]` for
the indices the source uses: `s.split(sep)[0] = takeUntil sep s` and, when
`sep` occurs, `s.split(sep)[1] = takeUntil sep (dropThrough sep s)`. -/

def listContains (sub : List Char) : List Char → Bool
  | [] => decide (sub = [])
  | c :: rest => sub.isPrefixOf (c :: rest) || listContains sub rest

def takeUntil (sep : List Char) : List Char → List Char
  | [] => []
  | c :: rest => if sep.isPrefixOf (c :: rest) then [] else c :: takeUntil sep rest

def dropThrough (sep : List Char) : List Char → List Char
  | [] => []
  | c :: rest => if sep.isPrefixOf (c :: rest) then List.drop (sep.length - 1) rest
                 else dropThrough sep rest

/-- Python `sub in s`. -/
def pyIn (sub t : String) : Bool := listContains sub.data t.data

/-- Suffix of `t` after the first occurrence of `sep` (empty if none). -/
def afterFirst (sep t : String) : String := String.mk (dropThrough sep.data t.data)

/-- Prefix of `t` before the first occurrence of `sep` (all of `t` if none);
this is Python `t.split(sep)[0]`. -/
def upToNext (sep t : String) : String := String.mk (takeUntil sep.data t.data)

/-- Default whitespace stripped by Python `str.strip()` (ASCII portion; the
source never feeds it non-ASCII whitespace). -/
def isPySpace (c : Char) : Bool :=
  c == ' ' || c == '\t' || c == '\n' || c == '\r' || c == '\x0b' || c == '\x0c'

/-- Python `t.strip()`. -/
def pyStrip (t : String) : String :=
  String.mk (((t.data.dropWhile isPySpace).reverse.dropWhile isPySpace).reverse)

/-- Python `x or d` for an optional string `x` (Python treats both `None` and
the empty string as falsy). -/
def pyOrElse (o : Option String) (d : String) : String :=
  match o with
  | some s => if s = "" then d else s
  | none => d

/-! ## JSON values, as produced by `json.loads` -/

/-- The values `json.loads` can return.  Numbers keep their source numeral text
(no claim inspects numeric magnitudes); objects are key/value lists in
insertion order with duplicate keys already collapsed (Python dict, last value
wins). -/
inductive Json where
  | null
  | bool (b : Bool)
  | num (raw : String)
  | str (s : String)
  | arr (items : List Json)
  | obj (fields : List (String × Json))
deriving Repr

/-- A JSON object body, the shape pydantic's `Optional[Dict]` fields accept. -/
abbrev Jobj := List (String × Json)

/-- Python `d.get(k)` on a dict built by the parser (keys unique). -/
def jget (ms : Jobj) (k : String) : Option Json :=
  match ms with
  | [] => none
  | (k2, v) :: rest => if k2 = k then some v else jget rest k

/-- Python `d[k] = v` semantics: replace in place if present, else append. -/
def setKey (ms : Jobj) (k : String) (v : Json) : Jobj :=
  match ms with
  | [] => [(k, v)]
  | (k2, v2) :: rest => if k2 = k then (k2, v) :: rest else (k2, v2) :: setKey rest k v

/-- Collapse duplicate keys of a parsed member list the way a Python dict
comprehension of sequential assignments does. -/
def dedupKeys (raw : Jobj) : Jobj := raw.foldl (fun acc p => setKey acc p.1 p.2) []

/-- Is a JSON numeral mathematically zero (Python falsy)?  `NaN`/`Infinity`
are truthy. -/
def numeralZero (raw : String) : Bool :=
  let m := raw.data.takeWhile (fun c => c != 'e' && c != 'E')
  m.all (fun c => c == '0' || c == '.' || c == '-') && m.any (fun c => c == '0')

/-- Python truthiness of a value returned by `json.loads`. -/
def Json.pyTruthy : Json → Bool
  | .null => false
  | .bool b => b
  | .num raw => !numeralZero raw
  | .str s => s != ""
  | .arr items => !items.isEmpty
  | .obj fields => !fields.isEmpty

/-! ## `json.loads`, modelled as a fuel-based recursive-descent parser

Fuel only bounds call depth; `2 * length + 4` always suffices because every
two nested calls consume at least one character.  The grammar is the one
`json.loads` accepts with its default options: objects, arrays, strings with
the standard escapes (`\uXXXX` is mapped through `Char.ofNat`; surrogate-pair
recombination is not modelled, no claim touches it), numbers, `true`, `false`,
`null`, and Python's `NaN`/`Infinity`/`-Infinity` extensions; whitespace is
` \t\n\r`; raw control characters in strings are rejected (strict mode);
trailing data after the top-level value is an error. -/

def jsonWs (c : Char) : Bool := c == ' ' || c == '\t' || c == '\n' || c == '\r'

def skipWs (l : List Char) : List Char := l.dropWhile jsonWs

def hexVal (c : Char) : Option Nat :=
  if c.isDigit then some (c.toNat - 48)
  else if 'a' ≤ c && c ≤ 'f' then some (c.toNat - 87)
  else if 'A' ≤ c && c ≤ 'F' then some (c.toNat - 55)
  else none

def mapConsStr (c : Char) (o : Option (List Char × List Char)) :
    Option (List Char × List Char) :=
  match o with
  | some (s, r) => some (c :: s, r)
  | none => none

/-- Parse the body of a JSON string after its opening quote; returns the
decoded characters and the input after the closing quote. -/
def parseStringBody : Nat → List Char → Option (List Char × List Char)
  | 0, _ => none
  | _ + 1, [] => none
  | fuel + 1, c :: rest =>
    if c = '"' then some ([], rest)
    else if c = '\\' then
      match rest with
      | [] => none
      | e :: r2 =>
        if e = '"' then mapConsStr '"' (parseStringBody fuel r2)
        else if e = '\\' then mapConsStr '\\' (parseStringBody fuel r2)
        else if e = '/' then mapConsStr '/' (parseStringBody fuel r2)
        else if e = 'b' then mapConsStr '\x08' (parseStringBody fuel r2)
        else if e = 'f' then mapConsStr '\x0c' (parseStringBody fuel r2)
        else if e = 'n' then mapConsStr '\n' (parseStringBody fuel r2)
        else if e = 'r' then mapConsStr '\r' (parseStringBody fuel r2)
        else if e = 't' then mapConsStr '\t' (parseStringBody fuel r2)
        else if e = 'u' then
          match r2 with
          | h1 :: h2 :: h3 :: h4 :: r3 =>
            match hexVal h1, hexVal h2, hexVal h3, hexVal h4 with
            | some a, some b, some c2, some d =>
              mapConsStr (Char.ofNat (((a * 16 + b) * 16 + c2) * 16 + d))
                (parseStringBody fuel r3)
            | _, _, _, _ => none
          | _ => none
        else none
    else if c.toNat < 32 then none
    else mapConsStr c (parseStringBody fuel rest)

/-- Optional fraction and exponent parts of a numeral, maximal-munch as the
`json` module's number regex. -/
def fracExp (acc : List Char) (l : List Char) : List Char × List Char :=
  let step1 : List Char × List Char :=
    match l with
    | '.' :: r =>
      match r.takeWhile Char.isDigit with
      | [] => (acc, l)
      | ds => (acc ++ '.' :: ds, r.dropWhile Char.isDigit)
    | _ => (acc, l)
  match step1.2 with
  | e :: r =>
    if e = 'e' || e = 'E' then
      match r with
      | s :: r2 =>
        if s = '+' || s = '-' then
          match r2.takeWhile Char.isDigit with
          | [] => step1
          | ds => (step1.1 ++ e :: s :: ds, r2.dropWhile Char.isDigit)
        else
          match r.takeWhile Char.isDigit with
          | [] => step1
          | ds => (step1.1 ++ e :: ds, r.dropWhile Char.isDigit)
      | [] => step1
    else step1
  | [] => step1

/-- Unsigned numeral: `0` or a nonzero-led digit run, then fraction/exponent. -/
def parseUnsignedNumber (l : List Char) : Option (List Char × List Char) :=
  match l with
  | '0' :: r => some (fracExp ['0'] r)
  | c :: r =>
    if c.isDigit then
      some (fracExp (c :: r.takeWhile Char.isDigit) (r.dropWhile Char.isDigit))
    else none
  | [] => none

def parseNumber (l : List Char) : Option (Json × List Char) :=
  match l with
  | '-' :: r =>
    match parseUnsignedNumber r with
    | some (ds, rest) => some (.num (String.mk ('-' :: ds)), rest)
    | none => none
  | _ =>
    match parseUnsignedNumber l with
    | some (ds, rest) => some (.num (String.mk ds), rest)
    | none => none

mutual

def parseValue : Nat → List Char → Option (Json × List Char)
  | 0, _ => none
  | fuel + 1, l0 =>
    let l := skipWs l0
    if ( "true".data).isPrefixOf l then some (.bool true, l.drop 4)
    else if ( "false".data).isPrefixOf l then some (.bool false, l.drop 5)
    else if ( "null".data).isPrefixOf l then some (.null, l.drop 4)
    else if ( "NaN".data).isPrefixOf l then some (.num "NaN", l.drop 3)
    else if ( "Infinity".data).isPrefixOf l then some (.num "Infinity", l.drop 8)
    else if ( "-Infinity".data).isPrefixOf l then some (.num "-Infinity", l.drop 9)
    else
      match l with
      | '"' :: rest =>
        match parseStringBody fuel rest with
        | some (s, r) => some (.str (String.mk s), r)
        | none => none
      | '[' :: rest =>
        (match skipWs rest with
         | ']' :: r2 => some (.arr [], r2)
         | r1 =>
           match parseElems fuel r1 with
           | some (es, r2) => some (.arr es, r2)
           | none => none)
      | '\x7b' :: rest =>
        (match skipWs rest with
         | '\x7d' :: r2 => some (.obj [], r2)
         | r1 =>
           match parseMembers fuel r1 with
           | some (ms, r2) => some (.obj (dedupKeys ms), r2)
           | none => none)
      | _ => parseNumber l

def parseElems : Nat → List Char → Option (List Json × List Char)
  | 0, _ => none
  | fuel + 1, l =>
    match parseValue fuel l with
    | none => none
    | some (v, r) =>
      match skipWs r with
      | ',' :: r2 =>
        (match parseElems fuel r2 with
         | some (vs, r3) => some (v :: vs, r3)
         | none => none)
      | ']' :: r2 => some ([v], r2)
      | _ => none

def parseMembers : Nat → List Char → Option (Jobj × List Char)
  | 0, _ => none
  | fuel + 1, l =>
    match skipWs l with
    | '"' :: rest =>
      (match parseStringBody fuel rest with
       | none => none
       | some (k, r) =>
         match skipWs r with
         | ':' :: r2 =>
           (match parseValue fuel r2 with
            | none => none
            | some (v, r3) =>
              match skipWs r3 with
              | ',' :: r4 =>
                (match parseMembers fuel r4 with
                 | some (ms, r5) => some ((String.mk k, v) :: ms, r5)
                 | none => none)
              | '\x7d' :: r4 => some ([(String.mk k, v)], r4)
              | _ => none)
         | _ => none)
    | _ => none

end

/-- Model of `json.loads`: parse one value, allow surrounding whitespace, reject
trailing data; `none` models `json.JSONDecodeError`. -/
def parseJson (s : String) : Option Json :=
  match parseValue (2 * s.data.length + 4) s.data with
  | some (v, rest) =>
    (match skipWs rest with
     | [] => some v
     | _ => none)
  | none => none

/-! ## The pipeline state (`AgentState`, `faff_qa.py` lines 9-15)

The pydantic model declares exactly these six fields; in particular it has
NO `changes_summary` field.  `Optional[Dict]` fields accept only dicts, so the
assessments are stored as `Jobj`. -/

structure AgentState where
  user_query : String
  proposed_answer : String
  grammar_fixed_answer : Option String := none
  adequacy_assessment : Option Jobj := none
  format_assessment : Option Jobj := none
  final_answer : Option String := none
deriving Repr

/-- A formatting example record as built by `load_formatting_examples_from_csv`
(lines 38-43): four string fields. -/
structure FormattingExample where
  task : String
  bad_format : String
  good_format : String
  explanation : String
deriving Repr

/-! ## Structured-response extraction (lines 113-121 and 177-185, identical)

The source computes
```
if "```json" in response_text:
    json_content = response_text.split("```json")[1].split("```")[0].strip()
elif "```" in response_text:
    json_content = response_text.split("```")[1].split("```")[0].strip()
else:
    json_content = response_text.strip()
```
`t.split(sep)[1]` (guarded by the `in` check) is the segment after the first
occurrence of `sep` up to its next occurrence, i.e.
`upToNext sep (afterFirst sep t)`, and `.split(sep2)[0]` of that is
`upToNext sep2` of it. -/

def extractJsonContent (t : String) : String :=
  if pyIn "```json" t then
    pyStrip (upToNext "```" (upToNext "```json" (afterFirst "```json" t)))
  else if pyIn "```" t then
    pyStrip (upToNext "```" (upToNext "```" (afterFirst "```" t)))
  else pyStrip t

/-! ## Stage 1: `fix_grammar` (lines 49-76)

The gateway's raw reply is stored verbatim as `grammar_fixed_answer`. -/

def applyFixGrammar (st : AgentState) (responseText : String) : AgentState :=
  { st with grammar_fixed_answer := some responseText }

/-! ## Stage 2: `check_adequacy` (lines 78-132) -/

/-- The fallback record of lines 125-130.  Its `improved_answer` is the Python
expression `state.grammar_fixed_answer or state.proposed_answer`. -/
def adequacySentinelObj (st : AgentState) : Jobj :=
  [( "adequately_addressed", .bool false),
   ( "missing_aspects", .arr [.str "Unable to parse assessment"]),
   ( "suggestions", .arr [.str "Error processing assessment"]),
   ( "improved_answer", .str (pyOrElse st.grammar_fixed_answer st.proposed_answer))]

/-- Lines 122-130: `json.loads` the extracted content, or the sentinel on
`JSONDecodeError` (the only exception the extraction/parse can raise). -/
def jsonOrAdequacySentinel (st : AgentState) (content : String) : Json :=
  match parseJson content with
  | some j => j
  | none => .obj (adequacySentinelObj st)

/-- The `adequacy_assessment` value `check_adequacy` returns for a given raw
model reply. -/
def checkAdequacyUpdate (st : AgentState) (responseText : String) : Json :=
  jsonOrAdequacySentinel st (extractJsonContent responseText)

/-! ## Stage 3: `improve_formatting` (lines 134-195) -/

/-- The Python pattern `o.get(k, d) if o else d` used at lines 138, 203 and
206: `o` is an `Optional[Dict]` tested for truthiness (both `None` and the
empty dict fall to the default). -/
def condGet (o : Option Jobj) (k : String) (d : Json) : Json :=
  match o with
  | some ms => if ms.isEmpty then d else (jget ms k).getD d
  | none => d

/-- Lines 138-140: the "current answer" sent to the formatting prompt. -/
def currentAnswerFmt (st : AgentState) : Json :=
  let c := condGet st.adequacy_assessment "improved_answer" (.str "")
  if c.pyTruthy then c
  else .str (pyOrElse st.grammar_fixed_answer st.proposed_answer)

/-- The fallback record of lines 189-193; `improved_answer` is the
`current_answer` computed above. -/
def formattingSentinelObj (st : AgentState) : Jobj :=
  [( "formatting_issues", .arr [.str "Unable to parse assessment"]),
   ( "improvements_made", .arr [.str "Error processing formatting"]),
   ( "improved_answer", currentAnswerFmt st)]

/-- The `format_assessment` value `improve_formatting` returns for a given raw
model reply (lines 186-195; extraction identical to stage 2). -/
def improveFormattingUpdate (st : AgentState) (responseText : String) : Json :=
  match parseJson (extractJsonContent responseText) with
  | some j => j
  | none => .obj (formattingSentinelObj st)

/-! ### Formatting prompt construction (lines 142-165) -/

mutual

/-- Python `repr` of a `json.loads` value, used only when an f-string
interpolates a non-string value (`str` of a container calls `repr` on its
elements).  The single quotes Python would print are built with
`Char.ofNat 39`; escape handling inside `repr` is not modelled (no claim
depends on it, the data model makes the interpolated value a string). -/
def pyReprOfJson : Json → String
  | .null => "None"
  | .bool true => "True"
  | .bool false => "False"
  | .num raw => raw
  | .str s => String.mk (Char.ofNat 39 :: s.data ++ [Char.ofNat 39])
  | .arr items => "[" ++ pyReprList items ++ "]"
  | .obj fields => "\x7b" ++ pyReprMembers fields ++ "\x7d"

def pyReprList : List Json → String
  | [] => ""
  | [x] => pyReprOfJson x
  | x :: xs => pyReprOfJson x ++ ", " ++ pyReprList xs

def pyReprMembers : List (String × Json) → String
  | [] => ""
  | [(k, v)] => String.mk (Char.ofNat 39 :: k.data ++ [Char.ofNat 39]) ++ ": " ++ pyReprOfJson v
  | (k, v) :: xs =>
    String.mk (Char.ofNat 39 :: k.data ++ [Char.ofNat 39]) ++ ": " ++ pyReprOfJson v
      ++ ", " ++ pyReprMembers xs

end

/-- Python `str(v)` as an f-string interpolates it. -/
def pyStrOfJson : Json → String
  | .str s => s
  | v => pyReprOfJson v

/-- One example block of the loop at lines 145-150; `label` is the printed
number (the loop prints `i+1` for index `i`). -/
def renderExampleBlock (label : String) (e : FormattingExample) : String :=
  "\nExample " ++ label ++ ":\n"
    ++ "User Query: " ++ e.task ++ "\n"
    ++ "Bad format: " ++ e.bad_format ++ "\n"
    ++ "Good format: " ++ e.good_format ++ "\n"
    ++ "Changes made: " ++ e.explanation ++ "\n"

/-- Lines 142-150: `examples_to_use = formatting_examples[:5]` then the
`+=` loop over `enumerate(examples_to_use)`. -/
def examplesTextOf (examples : List FormattingExample) : String :=
  ((examples.take 5).enum).foldl
    (fun acc p => acc ++ renderExampleBlock (toString (p.1 + 1)) p.2) ""

/-- The full formatting prompt f-string (lines 152-165). -/
def improveFormattingPrompt (st : AgentState) (examples : List FormattingExample) : String :=
  "Improve the formatting of this customer service answer to make it more readable and user-friendly.\nKeep the content largely the same, but apply formatting best practices based on these examples:\n\n"
    ++ examplesTextOf examples
    ++ "\n\nCurrent Task: " ++ st.user_query
    ++ "\nCurrent Answer:\n" ++ pyStrOfJson (currentAnswerFmt st)
    ++ "\n\nReturn your assessment as JSON with these fields:\n- \"formatting_issues\": list of formatting issues identified\n- \"improvements_made\": list of improvements you made\n- \"improved_answer\": the answer with better formatting\n"

/-! ## Stage 4: `create_final_answer` (lines 198-228)

This stage obtains a client but never calls the gateway: it is a pure function
of the state. -/

/-- Lines 202-207: the final answer fallback chain.  Line 207 is the Python
`or`-chain `adequacy_answer or state.grammar_fixed_answer or
state.proposed_answer`. -/
def finalAnswerOf (st : AgentState) : Json :=
  let formatted := condGet st.format_assessment "improved_answer" (.str "")
  if formatted.pyTruthy then formatted
  else
    let adequacyAns := condGet st.adequacy_assessment "improved_answer" (.str "")
    if adequacyAns.pyTruthy then adequacyAns
    else .str (pyOrElse st.grammar_fixed_answer st.proposed_answer)

/-- Lines 210-212: `if state.adequacy_assessment and not
state.adequacy_assessment.get("adequately_addressed", True)` — the dict is
tested for truthiness (empty dict falsy), the flag through `.get` with default
`True` and Python `not`. -/
def adequacyChangesOf (st : AgentState) : Json :=
  match st.adequacy_assessment with
  | some ms =>
    if ms.isEmpty then .arr []
    else if ((jget ms "adequately_addressed").getD (.bool true)).pyTruthy then .arr []
    else (jget ms "suggestions").getD (.arr [])
  | none => .arr []

/-- Lines 214-216: `if state.format_assessment:` then
`.get("improvements_made", [])`. -/
def formattingChangesOf (st : AgentState) : Json :=
  match st.format_assessment with
  | some ms =>
    if ms.isEmpty then .arr []
    else (jget ms "improvements_made").getD (.arr [])
  | none => .arr []

/-- Line 223: `state.grammar_fixed_answer != state.proposed_answer if
state.grammar_fixed_answer else False` — truthiness again, so an empty
grammar-fixed string yields `False`. -/
def grammarChangedOf (st : AgentState) : Bool :=
  match st.grammar_fixed_answer with
  | some s => if s = "" then false else s != st.proposed_answer
  | none => false

/-- The `changes_summary` dict built at lines 222-226. -/
structure ChangesSummary where
  grammar_changed : Bool
  adequacy_issues : Json
  formatting_improvements : Json
deriving Repr

/-- The dict `create_final_answer` returns at line 228:
`{"final_answer": ..., "changes_summary": ...}`. -/
structure FinalUpdate where
  final_answer : Json
  changes_summary : ChangesSummary
deriving Repr

def createFinalAnswer (st : AgentState) : FinalUpdate :=
  { final_answer := finalAnswerOf st,
    changes_summary :=
      { grammar_changed := grammarChangedOf st,
        adequacy_issues := adequacyChangesOf st,
        formatting_improvements := formattingChangesOf st } }

/-! ## The orchestrator (`build_answer_quality_graph`, lines 231-254)

The graph is the strict linear sequence fix_grammar → check_adequacy →
improve_formatting → create_final.  Each gateway call is modelled by an input
`GatewayReply`: the raw text the service returned, or a service failure, which
is fatal for the invocation.  A stage's returned dict is folded into the
pydantic state; a value that does not fit the declared field type
(`Optional[Dict]` for the assessments, `Optional[str]` for `final_answer`)
is a validation error, also fatal. -/

inductive GatewayReply where
  | ok (text : String)
  | serviceError
deriving Repr

inductive PipeError where
  | serviceError
  | validationError
deriving Repr, DecidableEq

def applyAdequacy (st : AgentState) (j : Json) : Except PipeError AgentState :=
  match j with
  | .obj ms => .ok { st with adequacy_assessment := some ms }
  | _ => .error .validationError

def applyFormatting (st : AgentState) (j : Json) : Except PipeError AgentState :=
  match j with
  | .obj ms => .ok { st with format_assessment := some ms }
  | _ => .error .validationError

/-- Fold the dict returned by `create_final_answer` (line 228) into the state.
`AgentState` (lines 9-15) declares no `changes_summary` field, so only the
`final_answer` entry has a state channel to land in; the summary entry of the
update cannot be stored. -/
def applyFinal (st : AgentState) (u : FinalUpdate) : Except PipeError AgentState :=
  match u.final_answer with
  | .str s => .ok { st with final_answer := some s }
  | _ => .error .validationError

def initState (q a : String) : AgentState :=
  { user_query := q, proposed_answer := a }

/-- One full pipeline invocation over given gateway replies.  Stage 4 makes no
gateway call, so three replies drive a run.  The formatting examples feed only
the stage-3 prompt (`improveFormattingPrompt`), not the state transitions. -/
def runPipeline (q a : String) (r1 r2 r3 : GatewayReply) :
    Except PipeError AgentState :=
  match r1 with
  | .serviceError => .error .serviceError
  | .ok t1 =>
    let st1 := applyFixGrammar (initState q a) t1
    match r2 with
    | .serviceError => .error .serviceError
    | .ok t2 =>
      match applyAdequacy st1 (checkAdequacyUpdate st1 t2) with
      | .error e => .error e
      | .ok st2 =>
        match r3 with
        | .serviceError => .error .serviceError
        | .ok t3 =>
          match applyFormatting st2 (improveFormattingUpdate st2 t3) with
          | .error e => .error e
          | .ok st3 => applyFinal st3 (createFinalAnswer st3)

/-! ## Entry point `process_answer` (lines 257-294) -/

inductive ProcError where
  /-- The `ValueError` of line 273: neither `formatting_examples` nor
  `csv_path` was supplied. -/
  | configError
  /-- Line 274 calls `load_formatting_examples_from_csv(csv_path)`, but the
  function defined at line 23 takes no parameters, so the call raises
  `TypeError` for every path value, before any stage runs. -/
  | typeError
  | pipe (e : PipeError)
deriving Repr, DecidableEq

/-- The dict `process_answer` returns (lines 286-293). -/
structure ProcessPayload where
  original_answer : String
  final_answer : Option String
  grammar_fixed : Bool
  adequacy_assessment : Option Jobj
  format_assessment : Option Jobj
deriving Repr

def processAnswer (q a : String) (formatting_examples : Option (List FormattingExample))
    (csv_path : Option String) (r1 r2 r3 : GatewayReply) :
    Except ProcError ProcessPayload :=
  match formatting_examples, csv_path with
  | none, none => .error .configError
  | none, some _ => .error .typeError
  | some _, _ =>
    match runPipeline q a r1 r2 r3 with
    | .error e => .error (.pipe e)
    | .ok st =>
      .ok { original_answer := a,
            final_answer := st.final_answer,
            grammar_fixed :=
              (match st.grammar_fixed_answer with
               | some s => if s = "" then false else s != a
               | none => false),
            adequacy_assessment := st.adequacy_assessment,
            format_assessment := st.format_assessment }

/-! ## Claim-side definitions

Each definition below follows the words of a spec claim (not the source), to
be compared with the source translation above.  Definitions named `claim...`
render a claim exactly as stated; definitions named `amended...` render the
minimally amended claim when the stated one fails on the code. -/

/-- Claim C1, strategy (a) as stated: "the content between a ```json fence and
the next ``` fence" — applicable when both fences exist. -/
def specStrategyA (t : String) : Option String :=
  if pyIn "```json" t && pyIn "```" (afterFirst "```json" t) then
    some (pyStrip (upToNext "```" (afterFirst "```json" t)))
  else none

/-- Claim C1, strategy (b) as stated: "the content between any ``` fence
pair" — the first such pair. -/
def specStrategyB (t : String) : Option String :=
  if pyIn "```" t && pyIn "```" (afterFirst "```" t) then
    some (pyStrip (upToNext "```" (afterFirst "```" t)))
  else none

/-- Claim C1 as stated: try (a), (b), (c) in order, moving to a later strategy
whenever an earlier one does not yield parseable content. -/
def specTryStrategiesInOrder (t : String) : Option Json :=
  match (specStrategyA t).bind parseJson with
  | some j => some j
  | none =>
    match (specStrategyB t).bind parseJson with
    | some j => some j
    | none => parseJson (pyStrip t)

/-- The content between the first occurrence of `sep` and its next
occurrence. -/
def betweenFirstFencePair (sep t : String) : String :=
  upToNext sep (afterFirst sep t)

/-- Claim C2's sentinel as stated: `improved_answer` is `grammar_fixed_answer`
if present (in the data-model sense: the optional field is set) else
`proposed_answer`. -/
def claimAdequacySentinelObj (st : AgentState) : Jobj :=
  [( "adequately_addressed", .bool false),
   ( "missing_aspects", .arr [.str "Unable to parse assessment"]),
   ( "suggestions", .arr [.str "Error processing assessment"]),
   ( "improved_answer", .str (match st.grammar_fixed_answer with
                             | some s => s
                             | none => st.proposed_answer))]

/-- The amended fallback: `grammar_fixed_answer` if present AND non-empty,
else `proposed_answer`. -/
def amendedGrammarFallback (st : AgentState) : String :=
  match st.grammar_fixed_answer with
  | some s => if s = "" then st.proposed_answer else s
  | none => st.proposed_answer

/-- Claim C2 amended: the sentinel with the present-and-non-empty fallback. -/
def amendedAdequacySentinelObj (st : AgentState) : Jobj :=
  [( "adequately_addressed", .bool false),
   ( "missing_aspects", .arr [.str "Unable to parse assessment"]),
   ( "suggestions", .arr [.str "Error processing assessment"]),
   ( "improved_answer", .str (amendedGrammarFallback st))]

/-- Claim C3 as stated: true iff `grammar_fixed_answer` is present and differs
(string inequality) from `proposed_answer`. -/
def claimGrammarChanged (st : AgentState) : Bool :=
  match st.grammar_fixed_answer with
  | some s => s != st.proposed_answer
  | none => false

/-- Claim C3 amended: present AND non-empty AND different. -/
def amendedGrammarChanged (st : AgentState) : Bool :=
  match st.grammar_fixed_answer with
  | some s => s != "" && s != st.proposed_answer
  | none => false

/-- The string value of field `k` of an optional assessment record, when the
field is present and is a string (the shape the spec's data model declares). -/
def strFieldOf (o : Option Jobj) (k : String) : Option String :=
  match o.bind (fun ms => jget ms k) with
  | some (.str s) => some s
  | _ => none

/-- As `strFieldOf`, but only when the string is non-empty. -/
def nonEmptyStrField (o : Option Jobj) (k : String) : Option String :=
  match strFieldOf o k with
  | some s => if s = "" then none else some s
  | none => none

/-- Claim C5 as stated: `adequacy_assessment.improved_answer` when present and
non-empty, else `grammar_fixed_answer` when present, else `proposed_answer`. -/
def claimCurrentAnswer (st : AgentState) : String :=
  match nonEmptyStrField st.adequacy_assessment "improved_answer" with
  | some s => s
  | none =>
    match st.grammar_fixed_answer with
    | some s => s
    | none => st.proposed_answer

/-- Claim C5 amended: the grammar step also requires non-emptiness. -/
def amendedCurrentAnswer (st : AgentState) : String :=
  match nonEmptyStrField st.adequacy_assessment "improved_answer" with
  | some s => s
  | none => amendedGrammarFallback st

/-- Claim C6 as stated: `format_assessment.improved_answer` when present and
non-empty, else `adequacy_assessment.improved_answer` when present and
non-empty, else `grammar_fixed_answer` when present, else `proposed_answer`. -/
def claimFinalAnswer (st : AgentState) : String :=
  match nonEmptyStrField st.format_assessment "improved_answer" with
  | some s => s
  | none => claimCurrentAnswer st

/-- Claim C6 amended: the grammar step also requires non-emptiness. -/
def amendedFinalAnswer (st : AgentState) : String :=
  match nonEmptyStrField st.format_assessment "improved_answer" with
  | some s => s
  | none => amendedCurrentAnswer st

/-- Claim C7 as stated: `adequacy_issues` equals
`adequacy_assessment.suggestions` exactly when an assessment is present and
its `adequately_addressed` field is (the boolean) false, else the empty
sequence. -/
def claimAdequacyIssues (st : AgentState) : Json :=
  match st.adequacy_assessment with
  | some ms =>
    (match jget ms "adequately_addressed" with
     | some (.bool false) => (jget ms "suggestions").getD (.arr [])
     | _ => .arr [])
  | none => .arr []

/-- Claim C7 as stated: `formatting_improvements` equals
`format_assessment.improvements_made` when a format assessment is present,
else the empty sequence. -/
def claimFormattingImprovements (st : AgentState) : Json :=
  match st.format_assessment with
  | some ms => (jget ms "improvements_made").getD (.arr [])
  | none => .arr []

/-- Claim C8's rendering: the examples as numbered few-shot blocks starting at
number `n`, in order. -/
def renderNumberedFrom (n : Nat) : List FormattingExample → String
  | [] => ""
  | e :: rest => renderExampleBlock (toString n) e ++ renderNumberedFrom (n + 1) rest

/-! ## Helper lemmas -/

theorem takeUntil_prefix (sep : List Char) : ∀ l : List Char, takeUntil sep l <+: l := by
  intro l
  induction l with
  | nil => exact List.nil_prefix
  | cons c rest ih =>
    rw [takeUntil]
    by_cases h : sep.isPrefixOf (c :: rest) = true
    · rw [if_pos h]; exact List.nil_prefix
    · rw [if_neg h]
      obtain ⟨t, ht⟩ := ih
      exact ⟨t, by rw [List.cons_append, ht]⟩

theorem listContains_takeUntil (sep : List Char) (hsep : sep ≠ []) :
    ∀ l : List Char, listContains sep (takeUntil sep l) = false := by
  intro l
  induction l with
  | nil => simp [takeUntil, listContains, hsep]
  | cons c rest ih =>
    rw [takeUntil]
    by_cases h : sep.isPrefixOf (c :: rest) = true
    · rw [if_pos h]; simp [listContains, hsep]
    · rw [if_neg h]
      rw [listContains, ih, Bool.or_false]
      by_contra hc
      rw [Bool.not_eq_false] at hc
      apply h
      rw [List.isPrefixOf_iff_prefix] at hc ⊢
      exact hc.trans (List.cons_prefix_cons.mpr ⟨rfl, takeUntil_prefix sep rest⟩)

theorem takeUntil_of_not_contains (sep : List Char) :
    ∀ l : List Char, listContains sep l = false → takeUntil sep l = l := by
  intro l
  induction l with
  | nil => intro _; rfl
  | cons c rest ih =>
    intro h
    rw [listContains, Bool.or_eq_false_iff] at h
    rw [takeUntil, if_neg (by simp [h.1]), ih h.2]

theorem takeUntil_idem (sep : List Char) (hsep : sep ≠ []) (l : List Char) :
    takeUntil sep (takeUntil sep l) = takeUntil sep l :=
  takeUntil_of_not_contains sep _ (listContains_takeUntil sep hsep l)

theorem listContains_mono (s1 s2 : List Char) (hp : s1.isPrefixOf s2 = true) :
    ∀ l : List Char, listContains s2 l = true → listContains s1 l = true := by
  intro l
  induction l with
  | nil =>
    intro h
    rw [listContains] at h ⊢
    have h2 : s2 = [] := by simpa using h
    subst h2
    have : s1 = [] := by
      rw [List.isPrefixOf_iff_prefix] at hp
      exact List.prefix_nil.mp hp
    simp [this]
  | cons c rest ih =>
    intro h
    rw [listContains, Bool.or_eq_true] at h ⊢
    cases h with
    | inl h =>
      left
      rw [List.isPrefixOf_iff_prefix] at hp h ⊢
      exact hp.trans h
    | inr h => right; exact ih h

/-- Containment of the json fence entails containment of the plain fence. -/
theorem pyIn_fence_of_pyIn_jsonFence (t : String) (h : pyIn "```json" t = true) :
    pyIn "```" t = true :=
  listContains_mono _ _ (by decide) t.data h

theorem nonEmptyStrField_ne_empty (o : Option Jobj) (k : String) (s : String)
    (h : nonEmptyStrField o k = some s) : s ≠ "" := by
  rw [nonEmptyStrField] at h
  split at h
  next s2 heq =>
    split at h
    next => simp at h
    next h2 =>
      rw [Option.some.injEq] at h
      subst h
      exact h2
  next => simp at h

/-- Under the data-model shape (the field, if present, is a string), the
Python pattern `o.get(k, "") if o else ""` produces exactly the
present-and-non-empty field or the empty string. -/
theorem condGet_eq_strField (o : Option Jobj) (k : String)
    (H : ∀ v, o.bind (fun ms => jget ms k) = some v → ∃ s, v = Json.str s) :
    condGet o k (.str "") = .str ((nonEmptyStrField o k).getD "") := by
  cases o with
  | none => rfl
  | some ms =>
    cases ms with
    | nil => simp [condGet, nonEmptyStrField, strFieldOf, jget]
    | cons x xs =>
      rw [condGet, if_neg (by simp)]
      cases hj : jget (x :: xs) k with
      | none => simp [nonEmptyStrField, strFieldOf, hj]
      | some v =>
        obtain ⟨s, rfl⟩ := H v (by simp [hj])
        by_cases hs : s = ""
        · subst hs; simp [nonEmptyStrField, strFieldOf, hj]
        · simp [nonEmptyStrField, strFieldOf, hj, hs]

theorem pyOrElse_eq_amendedGrammarFallback (st : AgentState) :
    pyOrElse st.grammar_fixed_answer st.proposed_answer = amendedGrammarFallback st := by
  rcases h : st.grammar_fixed_answer with _ | s <;>
    simp [pyOrElse, amendedGrammarFallback, h]

/-- The formatting stage's current answer equals the amended claim chain on
any state whose `improved_answer` field (if present) is a string. -/
theorem currentAnswerFmt_eq_amended (st : AgentState)
    (H : ∀ v, st.adequacy_assessment.bind (fun ms => jget ms "improved_answer") = some v →
      ∃ s, v = Json.str s) :
    currentAnswerFmt st = .str (amendedCurrentAnswer st) := by
  rw [currentAnswerFmt, condGet_eq_strField _ _ H]
  cases hne : nonEmptyStrField st.adequacy_assessment "improved_answer" with
  | none =>
    simp only [Option.getD_none]
    rw [if_neg (by decide)]
    rw [pyOrElse_eq_amendedGrammarFallback]
    simp [amendedCurrentAnswer, hne]
  | some s =>
    simp only [Option.getD_some]
    have hs := nonEmptyStrField_ne_empty _ _ _ hne
    rw [if_pos (by simp [Json.pyTruthy, bne_iff_ne, hs])]
    simp [amendedCurrentAnswer, hne]

/-- As above for the final-synthesis fallback chain (lines 202-207); the tail
of the chain is definitionally the formatting stage's current-answer
computation. -/
theorem finalAnswerOf_eq_amended (st : AgentState)
    (Hf : ∀ v, st.format_assessment.bind (fun ms => jget ms "improved_answer") = some v →
      ∃ s, v = Json.str s)
    (Ha : ∀ v, st.adequacy_assessment.bind (fun ms => jget ms "improved_answer") = some v →
      ∃ s, v = Json.str s) :
    finalAnswerOf st = .str (amendedFinalAnswer st) := by
  have hsplit : finalAnswerOf st =
      (if (condGet st.format_assessment "improved_answer" (.str "")).pyTruthy then
        condGet st.format_assessment "improved_answer" (.str "")
      else currentAnswerFmt st) := rfl
  rw [hsplit, condGet_eq_strField _ _ Hf]
  cases hne : nonEmptyStrField st.format_assessment "improved_answer" with
  | none =>
    simp only [Option.getD_none]
    rw [if_neg (by decide)]
    rw [currentAnswerFmt_eq_amended st Ha]
    simp [amendedFinalAnswer, hne]
  | some s =>
    simp only [Option.getD_some]
    have hs := nonEmptyStrField_ne_empty _ _ _ hne
    rw [if_pos (by simp [Json.pyTruthy, bne_iff_ne, hs])]
    simp [amendedFinalAnswer, hne]

theorem enumFrom_foldl_render (l : List FormattingExample) : ∀ (n : Nat) (s : String),
    (List.enumFrom n l).foldl
      (fun acc p => acc ++ renderExampleBlock (toString (p.1 + 1)) p.2) s
      = s ++ renderNumberedFrom (n + 1) l := by
  induction l with
  | nil => intro n s; rw [renderNumberedFrom]; exact (String.append_empty s).symm
  | cons e rest ih =>
    intro n s
    rw [show List.enumFrom n (e :: rest) = (n, e) :: List.enumFrom (n + 1) rest from rfl]
    rw [List.foldl_cons, ih (n + 1), renderNumberedFrom, String.append_assoc]

/-! ## Concrete states used by counterexamples and witnesses -/

/-- A reachable state in which stage 1 stored an empty reply: the
grammar-fixed answer is present but empty while the proposed answer is not. -/
def stEmptyGrammar : AgentState :=
  { user_query := "q", proposed_answer := "x", grammar_fixed_answer := some "" }

def stPlain : AgentState := { user_query := "q", proposed_answer := "p" }

def stAdqImproved : AgentState :=
  { user_query := "q", proposed_answer := "p", grammar_fixed_answer := some "g",
    adequacy_assessment := some [( "improved_answer", Json.str "better")] }

def stFmtImproved : AgentState :=
  { user_query := "q", proposed_answer := "p", grammar_fixed_answer := some "g",
    adequacy_assessment := some [( "improved_answer", Json.str "better")],
    format_assessment := some [( "improved_answer", Json.str "formatted")] }

def stSummary : AgentState :=
  { user_query := "q", proposed_answer := "p", grammar_fixed_answer := some "p2",
    adequacy_assessment := some [( "adequately_addressed", Json.bool false),
      ( "suggestions", Json.arr [Json.str "add detail"])],
    format_assessment := some [( "improvements_made", Json.arr [Json.str "added bullets"])] }

/-! ## The claims -/

/-- C1, counterexample.  The claim says a later extraction strategy is used
whenever an earlier one does not yield parseable content.  On
`"``` {} ``` ```json garbage ```"` strategy (a) extracts `garbage` (not
parseable) while strategy (b) extracts `{}` (parseable), so the claimed parser
yields the object; the code, which selects its single strategy by fence
presence only, fails to parse and falls to the sentinel. -/
theorem C1_counterexample :
    parseJson (extractJsonContent "``` \x7b\x7d ``` ```json garbage ```") = none ∧
    specTryStrategiesInOrder "``` \x7b\x7d ``` ```json garbage ```" = some (Json.obj []) ∧
    parseJson (extractJsonContent "``` \x7b\x7d ``` ```json garbage ```") ≠
      specTryStrategiesInOrder "``` \x7b\x7d ``` ```json garbage ```" :=
  ⟨rfl, rfl, fun h => Option.noConfusion h⟩

/-- C1, amended: the parser applies exactly one extraction strategy, chosen by
fence detection — (a) when the text contains a json-labelled fence, else (b)
when it contains any fence, else (c) — and the chosen content alone is parsed
(a parse failure falls to the sentinel without trying later strategies, which
is the stage behaviour proved for C2).  Strategy (b) extracts the content
between the first fence pair; strategy (c) the trimmed whole text; strategy
(a) the content after the first json-labelled fence cut at the following
fence. -/
theorem C1_amended (t : String) (st : AgentState) :
    (pyIn "```json" t = false → pyIn "```" t = true →
      checkAdequacyUpdate st t =
        jsonOrAdequacySentinel st (pyStrip (betweenFirstFencePair "```" t))) ∧
    (pyIn "```" t = false →
      checkAdequacyUpdate st t = jsonOrAdequacySentinel st (pyStrip t)) ∧
    (pyIn "```json" t = true →
      checkAdequacyUpdate st t =
        jsonOrAdequacySentinel st
          (pyStrip (upToNext "```" (upToNext "```json" (afterFirst "```json" t))))) := by
  have hid := takeUntil_idem ("```".data) (by decide)
  refine ⟨?_, ?_, ?_⟩
  · intro h1 h2
    rw [checkAdequacyUpdate, extractJsonContent, if_neg (by simp [h1]), if_pos h2]
    simp [betweenFirstFencePair, upToNext, hid]
  · intro h
    have h1 : pyIn "```json" t = false := by
      by_contra hc
      rw [Bool.not_eq_false] at hc
      rw [pyIn_fence_of_pyIn_jsonFence t hc] at h
      exact Bool.noConfusion h
    rw [checkAdequacyUpdate, extractJsonContent, if_neg (by simp [h1]), if_neg (by simp [h])]
  · intro h1
    rw [checkAdequacyUpdate, extractJsonContent, if_pos h1]

/-- C1, witness for the amended theorem at concrete inputs: a fence-free text
uses the trimmed whole text, and a text with one unlabelled fence pair parses
the content between the pair. -/
theorem C1_amended_witness :
    checkAdequacyUpdate stPlain "no fences here" =
      jsonOrAdequacySentinel stPlain (pyStrip "no fences here") ∧
    checkAdequacyUpdate stPlain "``` \x7b\x7d ```" = Json.obj [] :=
  ⟨(C1_amended "no fences here" stPlain).2.1 rfl,
   ((C1_amended "``` \x7b\x7d ```" stPlain).1 rfl rfl).trans rfl⟩

/-- C2, counterexample.  On an unparseable reply with
`grammar_fixed_answer = some ""` (present) and `proposed_answer = "x"`, the
claim's sentinel carries `improved_answer = ""` (the present grammar-fixed
value) but the code's Python `or` skips the empty string and stores `"x"`. -/
theorem C2_counterexample :
    parseJson (extractJsonContent "I cannot help with that.") = none ∧
    checkAdequacyUpdate stEmptyGrammar "I cannot help with that." =
      Json.obj [( "adequately_addressed", Json.bool false),
        ( "missing_aspects", Json.arr [Json.str "Unable to parse assessment"]),
        ( "suggestions", Json.arr [Json.str "Error processing assessment"]),
        ( "improved_answer", Json.str "x")] ∧
    checkAdequacyUpdate stEmptyGrammar "I cannot help with that." ≠
      Json.obj (claimAdequacySentinelObj stEmptyGrammar) := by
  refine ⟨rfl, rfl, ?_⟩
  intro h
  have h2 : Json.obj [( "adequately_addressed", Json.bool false),
      ( "missing_aspects", Json.arr [Json.str "Unable to parse assessment"]),
      ( "suggestions", Json.arr [Json.str "Error processing assessment"]),
      ( "improved_answer", Json.str "x")] =
      Json.obj (claimAdequacySentinelObj stEmptyGrammar) := h
  simp [claimAdequacySentinelObj, stEmptyGrammar] at h2

/-- C2, amended: whenever the extracted content of the raw reply does not
parse, `check_adequacy` raises nothing and produces exactly the sentinel
record — `adequately_addressed = false`, the two sentinel string lists, and
`improved_answer` equal to `grammar_fixed_answer` if present AND non-empty
else `proposed_answer` — and the pipeline accepts it and continues (the
sentinel is a dict, so folding it into the state succeeds). -/
theorem C2_amended (st : AgentState) (t : String)
    (h : parseJson (extractJsonContent t) = none) :
    checkAdequacyUpdate st t = Json.obj (amendedAdequacySentinelObj st) ∧
    applyAdequacy st (checkAdequacyUpdate st t) =
      Except.ok { st with adequacy_assessment := some (amendedAdequacySentinelObj st) } := by
  have h1 : checkAdequacyUpdate st t = Json.obj (amendedAdequacySentinelObj st) := by
    rw [checkAdequacyUpdate, jsonOrAdequacySentinel, h]
    show Json.obj (adequacySentinelObj st) = Json.obj (amendedAdequacySentinelObj st)
    rw [adequacySentinelObj, amendedAdequacySentinelObj, pyOrElse_eq_amendedGrammarFallback]
  exact ⟨h1, by rw [h1]; rfl⟩

/-- C2, witness: plain prose cannot be parsed, and the sentinel comes out with
the proposed answer as `improved_answer` (no grammar-fixed value is set). -/
theorem C2_amended_witness :
    parseJson (extractJsonContent "Sure, here are my thoughts.") = none ∧
    checkAdequacyUpdate stPlain "Sure, here are my thoughts." =
      Json.obj [( "adequately_addressed", Json.bool false),
        ( "missing_aspects", Json.arr [Json.str "Unable to parse assessment"]),
        ( "suggestions", Json.arr [Json.str "Error processing assessment"]),
        ( "improved_answer", Json.str "p")] :=
  ⟨rfl, ((C2_amended stPlain "Sure, here are my thoughts." rfl).1).trans rfl⟩

/-- C3, counterexample.  With `grammar_fixed_answer = some ""` (present, and
different from `proposed_answer = "x"`), the claim requires
`grammar_changed = true`, but the code's truthiness test on the empty string
yields `false`. -/
theorem C3_counterexample :
    grammarChangedOf stEmptyGrammar = false ∧
    claimGrammarChanged stEmptyGrammar = true ∧
    grammarChangedOf stEmptyGrammar ≠ claimGrammarChanged stEmptyGrammar :=
  ⟨rfl, rfl, by decide⟩

/-- C3, amended: `grammar_changed` is true iff `grammar_fixed_answer` is
present, non-empty, and differs character-for-character from
`proposed_answer`; false when it equals the proposed answer, is absent, or is
empty. -/
theorem C3_amended (st : AgentState) :
    grammarChangedOf st = amendedGrammarChanged st := by
  rcases h : st.grammar_fixed_answer with _ | s <;>
    simp [grammarChangedOf, amendedGrammarChanged, h]
  by_cases hs : s = ""
  · simp [hs]
  · simp [hs, bne_iff_ne]

/-- C4: evidence of the code bug.  `create_final_answer` returns a
`changes_summary` entry, but `AgentState` (lines 9-15) declares no such field,
so folding the stage-4 update into the state produces the same terminal state
whatever the computed summary was — the summary is dropped, and no terminal
state carries it (nor does the payload `process_answer` returns). -/
theorem C4_summary_dropped (st : AgentState) (fa : Json) (c1 c2 : ChangesSummary) :
    applyFinal st { final_answer := fa, changes_summary := c1 } =
      applyFinal st { final_answer := fa, changes_summary := c2 } := by
  cases fa <;> rfl

/-- C5, counterexample.  With no adequacy assessment,
`grammar_fixed_answer = some ""` (present) and `proposed_answer = "x"`, the
claim's chain stops at the present grammar-fixed value and yields the empty
string, while the code's `or`-chain skips the empty string and sends `"x"`
(the same state also falsifies the claim's own never-empty clause, which would
demand a non-empty result because `"x"` is non-empty upstream). -/
theorem C5_counterexample :
    currentAnswerFmt stEmptyGrammar = Json.str "x" ∧
    claimCurrentAnswer stEmptyGrammar = "" ∧
    currentAnswerFmt stEmptyGrammar ≠ Json.str (claimCurrentAnswer stEmptyGrammar) := by
  refine ⟨rfl, rfl, ?_⟩
  intro h
  have h2 : Json.str "x" = Json.str "" := h
  simp at h2

/-- C5, amended: on states whose `improved_answer` field (if present) is a
string, the current answer the formatting stage sends is
`adequacy_assessment.improved_answer` when present and non-empty, else
`grammar_fixed_answer` when present AND non-empty, else `proposed_answer`;
and it is empty only when every one of those upstream values is absent or
empty. -/
theorem C5_amended (st : AgentState)
    (H : ∀ v, st.adequacy_assessment.bind (fun ms => jget ms "improved_answer") = some v →
      ∃ s, v = Json.str s) :
    currentAnswerFmt st = Json.str (amendedCurrentAnswer st) ∧
    (currentAnswerFmt st = Json.str "" →
      nonEmptyStrField st.adequacy_assessment "improved_answer" = none ∧
      (∀ g, st.grammar_fixed_answer = some g → g = "") ∧
      st.proposed_answer = "") := by
  have h1 := currentAnswerFmt_eq_amended st H
  refine ⟨h1, ?_⟩
  intro h2
  rw [h1] at h2
  have h3 : amendedCurrentAnswer st = "" := by simpa using h2
  cases hne : nonEmptyStrField st.adequacy_assessment "improved_answer" with
  | some s =>
    exfalso
    have h4 : amendedCurrentAnswer st = s := by simp [amendedCurrentAnswer, hne]
    exact nonEmptyStrField_ne_empty _ _ _ hne (h4.symm.trans h3)
  | none =>
    have h4 : amendedGrammarFallback st = "" := by
      rw [← h3]; simp [amendedCurrentAnswer, hne]
    refine ⟨rfl, ?_, ?_⟩
    · intro g hg
      simp [amendedGrammarFallback, hg] at h4
      by_cases hgg : g = ""
      · exact hgg
      · simp [hgg] at h4
    · cases hg : st.grammar_fixed_answer with
      | none => simpa [amendedGrammarFallback, hg] using h4
      | some g =>
        simp [amendedGrammarFallback, hg] at h4
        by_cases hgg : g = ""
        · simpa [hgg] using h4
        · simp [hgg] at h4

/-- C5, witness: a state with a non-empty improved answer from the adequacy
stage sends exactly that answer. -/
theorem C5_amended_witness :
    currentAnswerFmt stAdqImproved = Json.str "better" :=
  ((C5_amended stAdqImproved (by
      intro v hv
      simp [stAdqImproved, jget] at hv
      exact ⟨ "better", hv.symm⟩)).1).trans rfl

/-- C6, counterexample.  With both assessments absent,
`grammar_fixed_answer = some ""` and `proposed_answer = "x"`, the claim's
chain yields the present-but-empty grammar-fixed value while the code's
`or`-chain yields `"x"`. -/
theorem C6_counterexample :
    finalAnswerOf stEmptyGrammar = Json.str "x" ∧
    claimFinalAnswer stEmptyGrammar = "" ∧
    finalAnswerOf stEmptyGrammar ≠ Json.str (claimFinalAnswer stEmptyGrammar) := by
  refine ⟨rfl, rfl, ?_⟩
  intro h
  have h2 : Json.str "x" = Json.str "" := h
  simp at h2

/-- C6, amended: on states whose `improved_answer` fields (if present) are
strings, the synthesised final answer is `format_assessment.improved_answer`
when present and non-empty, else `adequacy_assessment.improved_answer` when
present and non-empty, else `grammar_fixed_answer` when present AND
non-empty, else `proposed_answer`. -/
theorem C6_amended (st : AgentState)
    (Hf : ∀ v, st.format_assessment.bind (fun ms => jget ms "improved_answer") = some v →
      ∃ s, v = Json.str s)
    (Ha : ∀ v, st.adequacy_assessment.bind (fun ms => jget ms "improved_answer") = some v →
      ∃ s, v = Json.str s) :
    finalAnswerOf st = Json.str (amendedFinalAnswer st) :=
  finalAnswerOf_eq_amended st Hf Ha

/-- C6, witness: a state with a non-empty formatted answer synthesises exactly
that answer. -/
theorem C6_amended_witness :
    finalAnswerOf stFmtImproved = Json.str "formatted" :=
  ((C6_amended stFmtImproved
    (by
      intro v hv
      simp [stFmtImproved, jget] at hv
      exact ⟨ "formatted", hv.symm⟩)
    (by
      intro v hv
      simp [stFmtImproved, jget] at hv
      exact ⟨ "better", hv.symm⟩))).trans rfl

/-- C7: on states whose `adequately_addressed` field (if present) is a
boolean, as the spec's data model declares, the summary computed by stage 4
has `adequacy_issues` equal to `adequacy_assessment.suggestions` exactly when
an adequacy assessment is present with `adequately_addressed = false` and the
empty sequence otherwise, and `formatting_improvements` equal to
`format_assessment.improvements_made` when a format assessment is present and
the empty sequence otherwise. -/
theorem C7_changes_summary (st : AgentState)
    (H : ∀ ms v, st.adequacy_assessment = some ms →
      jget ms "adequately_addressed" = some v → ∃ b, v = Json.bool b) :
    (createFinalAnswer st).changes_summary.adequacy_issues = claimAdequacyIssues st ∧
    (createFinalAnswer st).changes_summary.formatting_improvements =
      claimFormattingImprovements st := by
  constructor
  · show adequacyChangesOf st = claimAdequacyIssues st
    cases ha : st.adequacy_assessment with
    | none => simp [adequacyChangesOf, claimAdequacyIssues, ha]
    | some ms =>
      cases ms with
      | nil => simp [adequacyChangesOf, claimAdequacyIssues, ha, jget]
      | cons x xs =>
        cases hj : jget (x :: xs) "adequately_addressed" with
        | none => simp [adequacyChangesOf, claimAdequacyIssues, ha, hj, Json.pyTruthy]
        | some v =>
          obtain ⟨b, rfl⟩ := H _ _ ha hj
          cases b <;>
            simp [adequacyChangesOf, claimAdequacyIssues, ha, hj, Json.pyTruthy]
  · show formattingChangesOf st = claimFormattingImprovements st
    cases hf : st.format_assessment with
    | none => simp [formattingChangesOf, claimFormattingImprovements, hf]
    | some ms =>
      cases ms with
      | nil => simp [formattingChangesOf, claimFormattingImprovements, hf, jget]
      | cons x xs => simp [formattingChangesOf, claimFormattingImprovements, hf]

/-- C7, witness: a state with `adequately_addressed = false`, suggestions and
improvements yields exactly those lists in the summary. -/
theorem C7_witness :
    (createFinalAnswer stSummary).changes_summary.adequacy_issues =
      Json.arr [Json.str "add detail"] ∧
    (createFinalAnswer stSummary).changes_summary.formatting_improvements =
      Json.arr [Json.str "added bullets"] := by
  have hd : ∀ ms v, stSummary.adequacy_assessment = some ms →
      jget ms "adequately_addressed" = some v → ∃ b, v = Json.bool b := by
    intro ms v hms hj
    simp [stSummary] at hms
    subst hms
    simp [jget] at hj
    exact ⟨false, hj.symm⟩
  exact ⟨((C7_changes_summary stSummary hd).1).trans rfl,
    ((C7_changes_summary stSummary hd).2).trans rfl⟩

/-- C8: the formatting prompt is built from exactly the first five loaded
examples in their original order — the prompt for any example list equals the
prompt for its first five, and the rendered block is the numbered rendering
(starting at 1) of exactly those first five (all of them, in order, when fewer
than five exist). -/
theorem C8_example_truncation (st : AgentState) (l : List FormattingExample) :
    improveFormattingPrompt st l = improveFormattingPrompt st (l.take 5) ∧
    examplesTextOf l = renderNumberedFrom 1 (l.take 5) := by
  have key : ∀ l2 : List FormattingExample,
      examplesTextOf l2 = renderNumberedFrom 1 (l2.take 5) := by
    intro l2
    rw [examplesTextOf]
    rw [show (l2.take 5).enum = List.enumFrom 0 (l2.take 5) from rfl]
    rw [enumFrom_foldl_render]
    exact String.empty_append _
  have h55 : (l.take 5).take 5 = l.take 5 := by simp
  constructor
  · rw [improveFormattingPrompt, improveFormattingPrompt, examplesTextOf, examplesTextOf, h55]
  · exact key l

/-- C9: `process_answer` fails with the configuration error of line 273, and
does so independently of every gateway reply (hence before any stage runs),
exactly when neither a pre-loaded example list nor a CSV path is supplied. -/
theorem C9_config_error (q a : String) (fe : Option (List FormattingExample))
    (csv : Option String) (r1 r2 r3 : GatewayReply) :
    processAnswer q a fe csv r1 r2 r3 = Except.error ProcError.configError ↔
      fe = none ∧ csv = none := by
  cases fe with
  | none =>
    cases csv with
    | none => simp [processAnswer]
    | some p => simp [processAnswer]
  | some exs =>
    cases hr : runPipeline q a r1 r2 r3 with
    | error e => cases csv <;> simp [processAnswer, hr]
    | ok st => cases csv <;> simp [processAnswer, hr]

/-- C10: with no pre-loaded examples and any CSV path, `process_answer` always
fails (with the `TypeError` of calling the zero-argument
`load_formatting_examples_from_csv` with an argument) whatever the gateway
would have replied — the CSV route can never succeed. -/
theorem C10_csv_route_always_fails (q a p : String) (r1 r2 r3 : GatewayReply) :
    processAnswer q a none (some p) r1 r2 r3 = Except.error ProcError.typeError := rfl

end FaffQA
